import Mathlib

/-
Shallow embedding of src/bot.py (a document-to-quiz chat bot).

Conventions of the embedding:
* timestamps are natural numbers counting seconds; timedelta(hours=1) is
  3600 and timedelta(hours=24) is 86400.  Python compares a possibly
  negative timedelta with a positive one; with truncated Nat subtraction
  the two comparisons used by the code (now - t < 3600 and
  now - t > 86400) agree with Python on every ordering of now and t,
  so Nat subtraction is faithful here.
* the global dict user_stats is modelled per user as Option UserRec
  (none = user absent from the dict).
* context.user_data is a dict whose keys may be absent; it is modelled as
  a structure of Option fields, and a read of a missing key is a KeyError.
* Python exceptions reaching the operation boundary are modelled by
  Except PyError.
* random.sample(words, 4) is modelled by a caller-supplied list of four
  distinct in-range positions, and random.randint(0, 3) by a supplied
  slot; the Hugging Face pipeline call is a supplied function from the
  prompt to Option String (none = falsy result, skipping the attempt).
* float arithmetic of round(correct/total*100, 1) is modelled by exact
  rationals with round-half-to-even.
-/

namespace Aibot

/-! ### Configuration constants (src/bot.py lines 31-35) -/

def MAX_QUESTIONS_PER_FILE : Nat := 50

def MIN_QUESTIONS : Nat := 5

def QUESTIONS_PER_BATCH : Nat := 5

def MAX_FILES_PER_HOUR : Nat := 2

def MAX_FILES_PER_DAY : Nat := 5

def hourTD : Nat := 3600

def dayTD : Nat := 86400

/-! ### Usage tracker (lines 37-38, 290-323) -/

/-- One value of the user_stats dict: file_count, last_upload,
daily_count, last_daily_reset (line 293-298). -/
structure UserRec where
  file_count : Nat
  last_upload : Option Nat
  daily_count : Nat
  last_daily_reset : Nat
deriving DecidableEq

/-- reset_user_stats (lines 290-304): lazily creates the record and
resets only daily_count when the daily anchor is stale. -/
def reset_user_stats (stats : Option UserRec) (now : Nat) : UserRec :=
  let r : UserRec :=
    match stats with
    | none => { file_count := 0, last_upload := none, daily_count := 0, last_daily_reset := now }
    | some r => r
  if now - r.last_daily_reset > dayTD then
    { r with daily_count := 0, last_daily_reset := now }
  else r

/-- check_limits (lines 306-323): hourly gate first (only when the last
upload is within the trailing hour), then the daily gate. -/
def check_limits (stats : Option UserRec) (now : Nat) : Bool :=
  match stats with
  | none => true
  | some u =>
    let hourly_window : Bool :=
      match u.last_upload with
      | none => false
      | some t => decide (now - t < hourTD)
    if hourly_window && decide (MAX_FILES_PER_HOUR ≤ u.file_count) then false
    else if MAX_FILES_PER_DAY ≤ u.daily_count then false
    else true

/-! ### Document handler (lines 114-181) -/

/-- Outcome of handle_document as observed by the user. -/
inductive DocOutcome where
  | quotaExceeded
  | unsupportedType
  | extractionFailed
  | accepted (file_text : String) (max_questions : Nat)
deriving DecidableEq

/-- Count of form-feed page breaks, text_content.count of the form-feed
character (line 158). -/
def countFF (s : String) : Nat := s.toList.count '\x0C'

/-- handle_document (lines 114-181) restricted to the state it touches:
reset stats, gate on check_limits, gate on the extension, increment
file_count and set last_upload (lines 137-138, before extraction), then
extract.  extracted = none models an exception inside the try block,
some "" models extracted text that is falsy (both reach the except
path of line 175 with counters already incremented). -/
def handle_document (stats : Option UserRec) (now : Nat) (ext : String)
    (extracted : Option String) : UserRec × DocOutcome :=
  let u := reset_user_stats stats now
  if check_limits (some u) now = false then
    (u, .quotaExceeded)
  else if ¬ (ext = "pdf" ∨ ext = "ppt" ∨ ext = "pptx") then
    (u, .unsupportedType)
  else
    let u2 : UserRec := { u with file_count := u.file_count + 1, last_upload := some now }
    match extracted with
    | none => (u2, .extractionFailed)
    | some t =>
      if t = "" then (u2, .extractionFailed)
      else
        let num_pages := countFF t + 1
        let mq := min MAX_QUESTIONS_PER_FILE (max MIN_QUESTIONS (num_pages * 2))
        (u2, .accepted t mq)

/-- An outcome counts against quota exactly when the two gates passed
(lines 137-138 run before extraction). -/
def charged : DocOutcome → Bool
  | .quotaExceeded => false
  | .unsupportedType => false
  | .extractionFailed => true
  | .accepted _ _ => true

/-! ### Tokenisation helpers -/

/-- A word character of the regex class backslash-w (ASCII fragment). -/
def isWordChar (c : Char) : Bool := c.isAlphanum || c = '_'

/-- Maximal runs of characters satisfying p, in order; acc holds the
current run reversed. -/
def splitRuns (p : Char → Bool) : List Char → List Char → List (List Char)
  | [], acc => if acc = [] then [] else [acc.reverse]
  | c :: rest, acc =>
    if p c then splitRuns p rest (c :: acc)
    else if acc = [] then splitRuns p rest []
    else acc.reverse :: splitRuns p rest []

/-- re.findall of word-character runs over the text (line 94). -/
def findWords (s : String) : List String :=
  (splitRuns isWordChar s.toList []).map List.asString

/-- Python str.split() with no argument: maximal runs of
non-whitespace (line 73). -/
def pySplit (s : String) : List String :=
  (splitRuns (fun c => ¬ c.isWhitespace) s.toList []).map List.asString

/-- Python str.strip(): drop whitespace on both ends (line 80). -/
def pyStrip (s : String) : String :=
  (((s.toList.dropWhile Char.isWhitespace).reverse.dropWhile Char.isWhitespace).reverse).asString

/-! ### Option synthesizer (lines 92-97) -/

/-- The fixed fallback vocabulary (line 96). -/
def fallbackWords : List String := ["Anatomy", "Physiology", "Pathology", "Pharmacology"]

/-- The population random.sample draws from: tokens of length > 5, with
duplicates kept, extended by the fallback vocabulary when the list
(counting duplicates) has fewer than 4 entries (lines 94-96). -/
def optionWords (context : String) : List String :=
  let words := (findWords context).filter (fun w => 5 < w.length)
  if words.length < 4 then words ++ fallbackWords else words

/-- A valid outcome of random.sample(words, 4): four pairwise distinct
positions inside the population. -/
def SampleOK (idxs : List Nat) (words : List String) : Prop :=
  idxs.length = 4 ∧ idxs.Nodup ∧ ∀ i ∈ idxs, i < words.length

instance (idxs : List Nat) (words : List String) : Decidable (SampleOK idxs words) := by
  unfold SampleOK; infer_instance

/-- generate_options (lines 92-97), with the random draw supplied as the
list of chosen positions. -/
def generate_options (idxs : List Nat) (context : String) : List String :=
  idxs.map (fun i => (optionWords context).getD i "")

/-! ### Question generator (lines 61-90) -/

/-- A generated question record (lines 85-89). -/
structure Question where
  question : String
  options : List String
  correct_idx : Nat
deriving DecidableEq

/-- Per-attempt randomness: the positions drawn by random.sample inside
generate_options and the slot of random.randint(0, 3). -/
structure GenRand where
  optIdxs : List Nat
  slot : Nat

/-- The prompt handed to the pipeline for one attempt: the first 300
whitespace-separated words of the text, space-joined, behind the fixed
prefix (lines 73-74). -/
def buildPrompt (context : String) : String :=
  "generate question: " ++ String.intercalate " " ((pySplit context).take 300)

/-- The corrected option inserted at the drawn slot: text before the
first question mark, a trailing question mark removed (vacuous after the
split), truncated to 100 characters (line 84). -/
def clean_answer (question : String) : String :=
  let s := question.toList.takeWhile (fun c => c ≠ '?')
  let s := if s.getLast? = some '?' then s.dropLast else s
  (s.take 100).asString

/-- The loop body of generate_questions (lines 71-89), indexed so each
attempt may use its own randomness; returns the questions built and the
trace of prompts passed to the model.  model prompt = none is a falsy
pipeline result, which skips the attempt (line 79). -/
def generate_questions_go (model : String → Option String) (rand : Nat → GenRand)
    (context : String) : Nat → Nat → List Question × List String
  | _, 0 => ([], [])
  | i, Nat.succ k =>
    let prompt := buildPrompt context
    let rest := generate_questions_go model rand context (i + 1) k
    match model prompt with
    | none => (rest.1, prompt :: rest.2)
    | some generated =>
      let question := pyStrip generated
      let options := generate_options (rand i).optIdxs context
      let correct_idx := (rand i).slot
      let options := options.set correct_idx (clean_answer question)
      ({ question := question, options := options, correct_idx := correct_idx } :: rest.1,
        prompt :: rest.2)

/-- generate_questions (lines 61-90). -/
def generate_questions (model : String → Option String) (rand : Nat → GenRand)
    (context : String) (num_questions : Nat) : List Question :=
  (generate_questions_go model rand context 0 num_questions).1

/-- The prompts handed to the pipeline across all attempts of one
generate_questions call. -/
def model_prompts (model : String → Option String) (rand : Nat → GenRand)
    (context : String) (num_questions : Nat) : List String :=
  (generate_questions_go model rand context 0 num_questions).2

/-! ### Session store (context.user_data) and scorer (lines 248-288) -/

/-- One recorded answer (lines 257-260). -/
structure AnswerEvent where
  question_idx : Nat
  selected : Nat
deriving DecidableEq

/-- Python exceptions that the handlers can raise. -/
inductive PyError where
  | keyError
  | indexError
  | zeroDivision
deriving DecidableEq

/-- context.user_data: a dict whose keys may be absent (lines 169-173,
200-202).  A field equal to none is a missing key. -/
structure UserData where
  file_text : Option String
  max_questions : Option Nat
  current_questions : Option (List Question)
  user_answers : Option (List AnswerEvent)
  score : Option Nat
  total_questions : Option Nat
  current_index : Option Nat
deriving DecidableEq

/-- user_data.clear() (line 288), and also the fresh dict of a user that
never uploaded. -/
def emptyUserData : UserData :=
  { file_text := none, max_questions := none, current_questions := none,
    user_answers := none, score := none, total_questions := none, current_index := none }

/-- The generator sum of line 272: count answers whose selected index
equals correct_idx of the question at their question_idx.  Reading
current_questions only happens once an answer is iterated; an
out-of-range question_idx is an IndexError. -/
def scoreAnswers (qs : Option (List Question)) : List AnswerEvent → Except PyError Nat
  | [] => .ok 0
  | a :: rest =>
    match qs with
    | none => .error .keyError
    | some l =>
      match l.get? a.question_idx with
      | none => .error .indexError
      | some q =>
        match scoreAnswers qs rest with
        | .error e => .error e
        | .ok n => .ok ((if a.selected = q.correct_idx then 1 else 0) + n)

/-- Round half to even, as Python round does on an exact value. -/
def roundHalfEven (q : Rat) : Int :=
  let f : Int := q.floor
  let frac : Rat := q - (f : Rat)
  if frac < (1 : Rat) / 2 then f
  else if (1 : Rat) / 2 < frac then f + 1
  else if f % 2 = 0 then f else f + 1

/-- round(x, 1) of Python over exact rationals. -/
def pyRound1 (q : Rat) : Rat := ((roundHalfEven (q * 10) : Int) : Rat) / 10

/-- show_results (lines 269-288): reads total_questions, scores the
answers, formats round(correct/total*100, 1) — a ZeroDivisionError when
total = 0 — and clears user_data.  Returns (correct, total, accuracy,
cleared dict). -/
def show_results (d : UserData) : Except PyError (Nat × Nat × Rat × UserData) :=
  match d.total_questions with
  | none => .error .keyError
  | some total =>
    match d.user_answers with
    | none => .error .keyError
    | some answers =>
      match scoreAnswers d.current_questions answers with
      | .error e => .error e
      | .ok correct =>
        if total = 0 then .error .zeroDivision
        else .ok (correct, total, pyRound1 (((correct : Rat) / (total : Rat)) * 100), emptyUserData)

/-! ### Batch dispatcher (lines 214-246, 262-267) -/

/-- The slice and cursor write of send_question_batch (lines 216-219 and
237): emit questions[start : start+5] and set current_index to
start + QUESTIONS_PER_BATCH unconditionally. -/
def sendBatchCore (qs : List Question) (start_idx : Nat) : List Question × Nat :=
  ((qs.drop start_idx).take QUESTIONS_PER_BATCH, start_idx + QUESTIONS_PER_BATCH)

/-- send_question_batch (lines 214-246): KeyError when the session keys
are absent; otherwise emit the batch, write the new cursor, and either
offer more (end_idx < len) or fall through to show_results, which clears
the session.  Returns (emitted, hasMore, resulting user_data). -/
def send_question_batch (d : UserData) : Except PyError (List Question × Bool × UserData) :=
  match d.current_questions with
  | none => .error .keyError
  | some qs =>
    match d.current_index with
    | none => .error .keyError
    | some start_idx =>
      let r := sendBatchCore qs start_idx
      let d2 : UserData := { d with current_index := some r.2 }
      if r.2 < qs.length then .ok (r.1, true, d2)
      else
        match show_results d2 with
        | .error e => .error e
        | .ok res => .ok (r.1, false, res.2.2.2)

/-- next_batch (lines 262-267): acknowledges the callback and delegates
to send_question_batch. -/
def next_batch (d : UserData) : Except PyError (List Question × Bool × UserData) :=
  send_question_batch d

/-! ### Concrete fixtures used by the claim checks -/

/-- Projection: number of questions emitted by a dispatcher call. -/
def batchEmittedLen : Except PyError (List Question × Bool × UserData) → Nat
  | .ok r => r.1.length
  | .error _ => 0

/-- Projection: the hasMore flag of a dispatcher call. -/
def batchHasMore : Except PyError (List Question × Bool × UserData) → Bool
  | .ok r => r.2.1
  | .error _ => false

/-- Feed the state of one dispatcher call into the next (the user
pressing the continue button). -/
def stepBatch : Except PyError (List Question × Bool × UserData) →
    Except PyError (List Question × Bool × UserData)
  | .ok r => next_batch r.2.2
  | .error e => .error e

/-- A fixed question used to build concrete sessions. -/
def dummyQ : Question := { question := "q", options := ["a", "b", "c", "d"], correct_idx := 0 }

/-- Twelve questions. -/
def qs12 : List Question := List.replicate 12 dummyQ

/-- The user_data of a freshly started 12-question session, as left by
handle_document (lines 169-173) and handle_question_count
(lines 200-202). -/
def sess12 : UserData :=
  { file_text := some "t", max_questions := some 50, current_questions := some qs12,
    user_answers := some [], score := some 0, total_questions := some 12,
    current_index := some 0 }

/-- The user_data of a session whose generation produced zero questions
(every pipeline attempt failed): total_questions = 0. -/
def sess0q : UserData :=
  { file_text := some "t", max_questions := some 50, current_questions := some [],
    user_answers := some [], score := some 0, total_questions := some 0,
    current_index := some 0 }

/-- A text whose only tokens of length > 5 are four copies of the same
word. -/
def ctx4 : String := "simple simple simple simple"

/-- The upload times of five confirmed ingestions, two hours apart, all
inside one 24-hour window. -/
def ingestTimes : List Nat := [0, 7200, 14400, 21600, 28800]

/-- Replay a sequence of pdf uploads with nonempty extracted text,
keeping the resulting stats record and the outcome trace. -/
def runUploadsTrace (times : List Nat) : Option UserRec × List DocOutcome :=
  times.foldl
    (fun acc t =>
      let r := handle_document acc.1 t "pdf" (some "doc")
      (some r.1, acc.2 ++ [r.2]))
    (none, [])

/-- The stats record expected after replaying ingestTimes: lifetime
count 5, last upload at 28800, daily counter still 0. -/
def statsAfter5 : UserRec :=
  { file_count := 5, last_upload := some 28800, daily_count := 0, last_daily_reset := 0 }

/-- A model stub that always answers with a 301-character text. -/
def longModel : String → Option String := fun _ => some (List.asString (List.replicate 301 'a'))

/-- A model stub returning a fixed short question. -/
def stubModel : String → Option String := fun _ => some " What is anatomy? "

/-- A model stub that always fails. -/
def failModel : String → Option String := fun _ => none

/-- Fixed randomness: positions 0-3 and slot 0 on every attempt. -/
def randConst : Nat → GenRand := fun _ => { optIdxs := [0, 1, 2, 3], slot := 0 }

/-- The question the stub model and the fixed randomness produce on
ctx4: the stripped prompt, the cleaned answer inserted at slot 0 of the
four sampled tokens. -/
def stubQ : Question :=
  { question := "What is anatomy?",
    options := ["What is anatomy", "simple", "simple", "simple"],
    correct_idx := 0 }

/-! ### Shared lemmas about the embedding -/

theorem reset_user_stats_file_count (u : UserRec) (t : Nat) :
    (reset_user_stats (some u) t).file_count = u.file_count := by
  unfold reset_user_stats
  dsimp only
  split <;> rfl

theorem reset_user_stats_last_upload (u : UserRec) (t : Nat) :
    (reset_user_stats (some u) t).last_upload = u.last_upload := by
  unfold reset_user_stats
  dsimp only
  split <;> rfl

/-- What handle_document does to the three stats fields, as a function
of whether the outcome was charged. -/
theorem handle_document_spec (s : Option UserRec) (now : Nat) (e : String)
    (x : Option String) :
    (handle_document s now e x).1.file_count =
      (if charged (handle_document s now e x).2 then (reset_user_stats s now).file_count + 1
       else (reset_user_stats s now).file_count) ∧
    (handle_document s now e x).1.last_upload =
      (if charged (handle_document s now e x).2 then some now
       else (reset_user_stats s now).last_upload) ∧
    (handle_document s now e x).1.daily_count = (reset_user_stats s now).daily_count := by
  unfold handle_document
  dsimp only
  split
  · simp [charged]
  · split
    · simp [charged]
    · cases x with
      | none => simp [charged]
      | some t => dsimp only; split <;> simp [charged]

/-- The hourly gate of check_limits: a record whose lifetime count has
reached the hourly cap denies any attempt within the trailing hour of
its last upload. -/
theorem check_limits_hourly (u : UserRec) (now t : Nat)
    (hl : u.last_upload = some t) (hw : now - t < hourTD)
    (hc : MAX_FILES_PER_HOUR ≤ u.file_count) :
    check_limits (some u) now = false := by
  unfold check_limits
  dsimp only
  rw [hl]
  simp [hw, hc]

/-- Every attempt of generate_questions computes the same prompt. -/
theorem generate_questions_go_prompts (model : String → Option String)
    (rand : Nat → GenRand) (context : String) :
    ∀ k i, (generate_questions_go model rand context i k).2 =
      List.replicate k (buildPrompt context) := by
  intro k
  induction k with
  | zero => intro i; rfl
  | succ n ih =>
    intro i
    simp only [generate_questions_go]
    cases model (buildPrompt context) <;> simp [ih, List.replicate_succ]

theorem asString_length (l : List Char) : (List.asString l).length = l.length := rfl

/-- The corrected option is always at most 100 characters. -/
theorem clean_answer_length_le (q : String) : (clean_answer q).length ≤ 100 := by
  unfold clean_answer
  dsimp only
  split <;>
    · rw [asString_length, List.length_take]
      exact Nat.min_le_left _ _

theorem getD_set_self_of_lt (l : List String) (i : Nat) (v d : String)
    (h : i < l.length) :
    (l.set i v).getD i d = v := by
  have h2 : i < (l.set i v).length := by rw [List.length_set]; exact h
  rw [List.getD_eq_getElem _ _ h2]
  exact List.getElem_set_self h2

/-- Structural invariant of every question built by the generation
loop, for any valid randomness. -/
theorem generate_questions_go_sound (model : String → Option String)
    (rand : Nat → GenRand) (context : String)
    (hr : ∀ i, (rand i).slot < 4 ∧ SampleOK (rand i).optIdxs (optionWords context)) :
    ∀ k i q, q ∈ (generate_questions_go model rand context i k).1 →
      q.options.length = 4 ∧ q.correct_idx < 4 ∧
      q.options.getD q.correct_idx "" = clean_answer q.question ∧
      (clean_answer q.question).length ≤ 100 := by
  intro k
  induction k with
  | zero => intro i q hq; simp [generate_questions_go] at hq
  | succ n ih =>
    intro i q hq
    simp only [generate_questions_go] at hq
    cases hmodel : model (buildPrompt context) with
    | none =>
      rw [hmodel] at hq
      exact ih (i + 1) q hq
    | some g =>
      rw [hmodel] at hq
      dsimp only at hq
      rw [List.mem_cons] at hq
      rcases hq with rfl | hq
      · obtain ⟨hslot, hlen4, _, _⟩ :=
          And.intro (hr i).1 (hr i).2
        have hlen : (generate_options (rand i).optIdxs context).length = 4 := by
          simp [generate_options, hlen4]
        refine ⟨?_, ?_, ?_, ?_⟩
        · simpa [List.length_set] using hlen
        · exact hslot
        · exact getD_set_self_of_lt _ _ _ _ (by rw [hlen]; exact hslot)
        · exact clean_answer_length_le _
      · exact ih (i + 1) q hq

/-! ### Claim theorems -/

/-- C1, counterexample: on a 12-question session the third batch call
writes cursor 15, which exceeds totalCount = 12 and is not 10 plus the
2 questions actually emitted, so the cursor is not advanced by the
number emitted and does not end at 12. -/
theorem c1_counterexample :
    (sendBatchCore qs12 ((sendBatchCore qs12 ((sendBatchCore qs12 0).2)).2)).2 = 15 ∧
    ((sendBatchCore qs12 10).1).length = 2 ∧
    (sendBatchCore qs12 10).2 ≠ 10 + ((sendBatchCore qs12 10).1).length ∧
    qs12.length < (sendBatchCore qs12 10).2 := by
  refine ⟨rfl, rfl, by decide, by decide⟩

/-- C1, amended: send_question_batch emits the slice
[cursor, cursor + batchSize) clipped to the available questions, but
advances the cursor by exactly QUESTIONS_PER_BATCH (not by the number
emitted), so the cursor is monotonically non-decreasing yet overshoots
totalCount on the final short batch; on a 12-question session the three
calls emit slices of sizes 5, 5, 2, hasMore is false after the third,
and the cursor is set to 15 before show_results clears the session. -/
theorem c1_amended (qs : List Question) (i : Nat) :
    ((sendBatchCore qs i).1 = (qs.drop i).take QUESTIONS_PER_BATCH ∧
     (sendBatchCore qs i).2 = i + QUESTIONS_PER_BATCH ∧
     i ≤ (sendBatchCore qs i).2 ∧
     (sendBatchCore qs i).1.length = min QUESTIONS_PER_BATCH (qs.length - i)) ∧
    (batchEmittedLen (send_question_batch sess12) = 5 ∧
     batchHasMore (send_question_batch sess12) = true ∧
     batchEmittedLen (stepBatch (send_question_batch sess12)) = 5 ∧
     batchHasMore (stepBatch (send_question_batch sess12)) = true ∧
     batchEmittedLen (stepBatch (stepBatch (send_question_batch sess12))) = 2 ∧
     batchHasMore (stepBatch (stepBatch (send_question_batch sess12))) = false) := by
  refine ⟨⟨rfl, rfl, Nat.le_add_right _ _, ?_⟩, by decide⟩
  simp [sendBatchCore, List.length_take, List.length_drop]

/-- C2: finalizing a session with total = 0 does not return accuracy 0;
the code evaluates round(correct/total*100, 1) with total = 0 and
raises ZeroDivisionError, both through the dispatcher fall-through and
in show_results itself. -/
theorem c2_code_evaluation :
    send_question_batch sess0q = .error .zeroDivision ∧
    show_results { sess0q with current_index := some 5 } = .error .zeroDivision :=
  ⟨rfl, rfl⟩

/-- C3: after five confirmed ingestions inside one 24-hour window the
daily counter is still 0, because no code path increments daily_count;
the sixth attempt (outside the trailing hour) passes check_limits and
is accepted, so the daily cap is not enforced. -/
theorem c3_code_evaluation :
    ((runUploadsTrace ingestTimes).2.map charged) = [true, true, true, true, true] ∧
    (runUploadsTrace ingestTimes).1 = some statsAfter5 ∧
    statsAfter5.daily_count = 0 ∧
    MAX_FILES_PER_DAY ≤ statsAfter5.file_count ∧
    check_limits (some (reset_user_stats (some statsAfter5) 36000)) 36000 = true ∧
    (handle_document (some statsAfter5) 36000 "pdf" (some "doc")).2 ≠
      DocOutcome.quotaExceeded := by
  refine ⟨rfl, rfl, rfl, by decide, rfl, by decide⟩

/-- C4: requesting the next batch with no active session raises
KeyError (reading user_data of a user with no stored questions), an
unhandled fault instead of a user-visible no-op notice. -/
theorem c4_code_evaluation :
    next_batch emptyUserData = .error .keyError ∧
    send_question_batch emptyUserData = .error .keyError :=
  ⟨rfl, rfl⟩

/-- C5, counterexample: an upload whose extraction fails still
increments file_count (0 to 1) and sets last_upload, so a rejected
upload consumes quota. -/
theorem c5_counterexample :
    (handle_document none 0 "pdf" none).2 = DocOutcome.extractionFailed ∧
    (handle_document none 0 "pdf" none).1.file_count = 1 ∧
    (reset_user_stats none 0).file_count = 0 ∧
    (handle_document none 0 "pdf" none).1.last_upload = some 0 ∧
    (reset_user_stats none 0).last_upload = none := by
  refine ⟨rfl, rfl, rfl, rfl, rfl⟩

/-- C5, amended: the counters are charged exactly when the quota and
file-type gates pass, before extraction is attempted: a quota-denied or
unsupported-type upload leaves file_count and last_upload unchanged,
while an accepted upload whose extraction fails or yields no text is
still charged. -/
theorem c5_amended (s : Option UserRec) (now : Nat) (e : String) (x : Option String) :
    ((handle_document s now e x).1.file_count =
      (if charged (handle_document s now e x).2 then (reset_user_stats s now).file_count + 1
       else (reset_user_stats s now).file_count)) ∧
    ((handle_document s now e x).1.last_upload =
      (if charged (handle_document s now e x).2 then some now
       else (reset_user_stats s now).last_upload)) ∧
    charged DocOutcome.extractionFailed = true ∧
    charged DocOutcome.quotaExceeded = false ∧
    charged DocOutcome.unsupportedType = false := by
  obtain ⟨h1, h2, _⟩ := handle_document_spec s now e x
  exact ⟨h1, h2, rfl, rfl, rfl⟩

/-- C6, counterexample: the token list is not deduplicated, so on a
text whose qualifying tokens are four copies of one word every valid
draw of random.sample returns four equal strings; in particular the
draw of positions 0, 1, 2, 3 is valid and its result is not pairwise
distinct. -/
theorem c6_counterexample :
    SampleOK [0, 1, 2, 3] (optionWords ctx4) ∧
    generate_options [0, 1, 2, 3] ctx4 = ["simple", "simple", "simple", "simple"] ∧
    ¬ (generate_options [0, 1, 2, 3] ctx4).Nodup := by
  refine ⟨by decide, rfl, by decide⟩

/-- C6, amended: for every text and every valid outcome of the random
draw, generate_options returns exactly 4 strings taken at pairwise
distinct positions of the list of tokens of length > 5 (duplicates
kept, padded with the fixed fallback vocabulary when that list has
fewer than 4 entries); the strings themselves need not be distinct when
the text repeats a token. -/
theorem c6_amended (context : String) (idxs : List Nat)
    (h : SampleOK idxs (optionWords context)) :
    (generate_options idxs context).length = 4 ∧
    ∀ s ∈ generate_options idxs context, s ∈ optionWords context := by
  obtain ⟨hlen, _, hmem⟩ := h
  constructor
  · simp [generate_options, hlen]
  · intro s hs
    rw [generate_options, List.mem_map] at hs
    obtain ⟨i, hi, rfl⟩ := hs
    have hlt := hmem i hi
    rw [List.getD_eq_getElem _ _ hlt]
    exact List.getElem_mem hlt

/-- C6, witness: a concrete valid draw on a four-token text. -/
theorem c6_witness :
    (generate_options [3, 1, 0, 2] "anatomy pathology histology embryology").length = 4 ∧
    ∀ s ∈ generate_options [3, 1, 0, 2] "anatomy pathology histology embryology",
      s ∈ optionWords "anatomy pathology histology embryology" :=
  c6_amended "anatomy pathology histology embryology" [3, 1, 0, 2] (by decide)

set_option maxRecDepth 8192 in
/-- C7, counterexample: generate_questions stores the stripped model
output as the prompt without truncating it, so a 301-character model
response yields a Question whose prompt has 301 characters, violating
the 300-character bound of the claimed invariant. -/
theorem c7_counterexample :
    (generate_questions longModel randConst ctx4 1).map (fun q => q.question.length) = [301] ∧
    ¬ ∀ q ∈ generate_questions longModel randConst ctx4 1, q.question.length ≤ 300 := by
  have hmap :
      (generate_questions longModel randConst ctx4 1).map (fun q => q.question.length) =
        [301] := rfl
  refine ⟨hmap, fun hall => ?_⟩
  cases hl : generate_questions longModel randConst ctx4 1 with
  | nil => rw [hl] at hmap; simp at hmap
  | cons q rest =>
    rw [hl] at hmap hall
    simp only [List.map_cons, List.cons.injEq] at hmap
    have hle := hall q (List.mem_cons_self q rest)
    omega

/-- C7, amended: every Question produced by generate_questions (for any
model behaviour and any valid randomness) has exactly 4 options, a
correctIndex in [0, 3], and the option at correctIndex equal to the
cleaned form of the prompt (text before the first question mark, a
trailing question mark removed) truncated to at most 100 characters;
the stored prompt itself is the stripped model output and is not
bounded by 300 characters (the 300-character cut happens only when the
poll is emitted, line 223). -/
theorem c7_amended (model : String → Option String) (rand : Nat → GenRand)
    (context : String) (n : Nat)
    (hr : ∀ i, (rand i).slot < 4 ∧ SampleOK (rand i).optIdxs (optionWords context)) :
    ∀ q ∈ generate_questions model rand context n,
      q.options.length = 4 ∧ q.correct_idx < 4 ∧
      q.options.getD q.correct_idx "" = clean_answer q.question ∧
      (clean_answer q.question).length ≤ 100 :=
  fun q hq => generate_questions_go_sound model rand context hr n 0 q hq

/-- C7, witness: the concrete question generated by the stub model
under the fixed randomness satisfies the amended invariant. -/
theorem c7_witness :
    stubQ ∈ generate_questions stubModel randConst ctx4 1 ∧
    (stubQ.options.length = 4 ∧ stubQ.correct_idx < 4 ∧
     stubQ.options.getD stubQ.correct_idx "" = clean_answer stubQ.question ∧
     (clean_answer stubQ.question).length ≤ 100) :=
  ⟨by decide,
    c7_amended stubModel randConst ctx4 1
      (by
        intro i
        refine ⟨?_, ?_⟩ <;> simp only [randConst] <;> decide)
      stubQ (by decide)⟩

/-- C8: once two ingestions have been confirmed (charged), a third
upload attempt within one hour of the second is denied by check_limits,
for any starting stats and any extension or extraction outcome of the
confirmed uploads. -/
theorem c8_theorem (s0 : Option UserRec) (t1 t2 t3 : Nat) (e1 e2 : String)
    (x1 x2 : Option String)
    (hc1 : charged (handle_document s0 t1 e1 x1).2 = true)
    (hc2 : charged (handle_document (some (handle_document s0 t1 e1 x1).1) t2 e2 x2).2 = true)
    (hw : t3 - t2 < hourTD) :
    check_limits
      (some (reset_user_stats
        (some (handle_document (some (handle_document s0 t1 e1 x1).1) t2 e2 x2).1) t3)) t3
      = false := by
  obtain ⟨h1c, _, _⟩ := handle_document_spec s0 t1 e1 x1
  obtain ⟨h2c, h2l, _⟩ :=
    handle_document_spec (some (handle_document s0 t1 e1 x1).1) t2 e2 x2
  rw [hc1] at h1c
  rw [hc2] at h2c h2l
  simp only [if_true] at h1c h2c h2l
  have hcount :
      MAX_FILES_PER_HOUR ≤
        (handle_document (some (handle_document s0 t1 e1 x1).1) t2 e2 x2).1.file_count := by
    rw [h2c, reset_user_stats_file_count, h1c]
    unfold MAX_FILES_PER_HOUR
    omega
  apply check_limits_hourly _ _ t2
  · rw [reset_user_stats_last_upload]
    exact h2l
  · exact hw
  · rw [reset_user_stats_file_count]
    exact hcount

/-- C8, witness: two confirmed pdf ingestions at times 0 and 10, then
an attempt at time 20. -/
theorem c8_witness :
    charged (handle_document none 0 "pdf" (some "doc")).2 = true ∧
    charged (handle_document (some (handle_document none 0 "pdf" (some "doc")).1) 10 "pdf"
      (some "doc")).2 = true ∧
    check_limits
      (some (reset_user_stats
        (some (handle_document (some (handle_document none 0 "pdf" (some "doc")).1) 10 "pdf"
          (some "doc")).1) 20)) 20 = false :=
  ⟨by decide, by decide,
    c8_theorem none 0 10 20 "pdf" "pdf" (some "doc") (some "doc") (by decide) (by decide)
      (by decide)⟩

/-- C9: file_count is never decreased or reset — reset_user_stats
preserves it and handle_document only keeps or increments it — so it is
the lifetime total of accepted uploads; consequently a user whose
lifetime total has reached MAX_FILES_PER_HOUR is denied on every upload
arriving within one hour of the most recent accepted upload, regardless
of how many uploads fell in the trailing hour. -/
theorem c9_theorem (u : UserRec) (t now2 : Nat)
    (hc : MAX_FILES_PER_HOUR ≤ u.file_count)
    (hl : u.last_upload = some t) (hw : now2 - t < hourTD) :
    (∀ r : UserRec, ∀ t0 : Nat, (reset_user_stats (some r) t0).file_count = r.file_count) ∧
    (∀ s : Option UserRec, ∀ n : Nat, ∀ e : String, ∀ x : Option String,
      (reset_user_stats s n).file_count ≤ (handle_document s n e x).1.file_count) ∧
    check_limits (some (reset_user_stats (some u) now2)) now2 = false ∧
    (∀ e : String, ∀ x : Option String,
      (handle_document (some u) now2 e x).2 = DocOutcome.quotaExceeded) := by
  have hdeny : check_limits (some (reset_user_stats (some u) now2)) now2 = false := by
    apply check_limits_hourly _ _ t
    · rw [reset_user_stats_last_upload]; exact hl
    · exact hw
    · rw [reset_user_stats_file_count]; exact hc
  refine ⟨reset_user_stats_file_count, ?_, hdeny, ?_⟩
  · intro s n e x
    obtain ⟨h1, _, _⟩ := handle_document_spec s n e x
    rw [h1]
    split
    · exact Nat.le_succ _
    · exact Nat.le_refl _
  · intro e x
    unfold handle_document
    dsimp only
    rw [if_pos hdeny]

/-- C9, witness: a record with lifetime count 2 and last upload at 0 is
denied at time 100. -/
theorem c9_witness :
    MAX_FILES_PER_HOUR ≤ (UserRec.mk 2 (some 0) 0 0).file_count ∧
    (UserRec.mk 2 (some 0) 0 0).last_upload = some 0 ∧
    (100 - 0 < hourTD) ∧
    ((∀ r : UserRec, ∀ t0 : Nat, (reset_user_stats (some r) t0).file_count = r.file_count) ∧
     (∀ s : Option UserRec, ∀ n : Nat, ∀ e : String, ∀ x : Option String,
       (reset_user_stats s n).file_count ≤ (handle_document s n e x).1.file_count) ∧
     check_limits (some (reset_user_stats (some (UserRec.mk 2 (some 0) 0 0)) 100)) 100 = false ∧
     (∀ e : String, ∀ x : Option String,
       (handle_document (some (UserRec.mk 2 (some 0) 0 0)) 100 e x).2 =
         DocOutcome.quotaExceeded)) :=
  ⟨by decide, rfl, by decide,
    c9_theorem (UserRec.mk 2 (some 0) 0 0) 0 100 (by decide) rfl (by decide)⟩

/-- C10: every one of the n pipeline invocations of a
generate_questions call receives the identical prompt — the fixed
prefix followed by the first 300 whitespace-separated words of the
text — and two texts agreeing on their first 300 words produce
identical prompt traces under any models and any randomness. -/
theorem c10_theorem (model1 model2 : String → Option String)
    (rand1 rand2 : Nat → GenRand) (t1 t2 : String) (n : Nat)
    (hagree : (pySplit t1).take 300 = (pySplit t2).take 300) :
    model_prompts model1 rand1 t1 n = List.replicate n (buildPrompt t1) ∧
    model_prompts model1 rand1 t1 n = model_prompts model2 rand2 t2 n := by
  have hp : buildPrompt t1 = buildPrompt t2 := by
    unfold buildPrompt
    rw [hagree]
  have h1 := generate_questions_go_prompts model1 rand1 t1 n 0
  have h2 := generate_questions_go_prompts model2 rand2 t2 n 0
  refine ⟨h1, ?_⟩
  rw [model_prompts, model_prompts, h1, h2, hp]

/-- C10, witness: two texts differing only in whitespace have the same
first 300 words and so yield identical prompt traces, here with a
failing model and with the stub model. -/
theorem c10_witness :
    model_prompts failModel randConst "alpha beta" 2 =
      List.replicate 2 (buildPrompt "alpha beta") ∧
    model_prompts failModel randConst "alpha beta" 2 =
      model_prompts stubModel randConst "alpha  beta " 2 :=
  c10_theorem failModel stubModel randConst randConst "alpha beta" "alpha  beta " 2 (by decide)

end Aibot
